import Mathlib

/-!
Shallow embedding of the KiteSublime event-handling module
(`src/lib/handlers.py`) and verification of its specification claims.

The module consists of five Sublime Text event listeners:
`EventDispatcher`, `CompletionsHandler`, `SignaturesHandler`,
`HoverHandler` and `StatusHandler`.  Editor views, HTTP responses and
the task queue are external collaborators; they are modelled by plain
data (a `View` record, status-code/body pairs) and by returning the
list of actions a handler queues instead of performing them.
-/

/-- Model of a Sublime selection region: a pair of points `a`, `b`
(`r.begin()` is their minimum, `r.end()` their maximum). -/
structure SublimeRegion where
  a : Nat
  b : Nat
  deriving DecidableEq

/-- Model of a Sublime view.  `match_selector` abstracts the syntax-scope
query `view.match_selector(point, selector)`. -/
structure View where
  file_name : Option String
  size : Nat
  sel : List SublimeRegion
  text : String
  match_selector : Nat → String → Bool

/-- Model of `os.path.realpath`: an external collaborator, modelled as the
identity on paths. -/
def realpath (p : String) : String := p

/-- Embeds `_is_view_supported` (handlers.py line 28): the view has a file
name ending in `.py`.  Python `str.endswith` is modelled as a suffix
test on the character list. -/
def _is_view_supported (view : View) : Bool :=
  match view.file_name with
  | some f => ".py".data.isSuffixOf f.data
  | none => false

/-- Embeds `_check_view_size` (handlers.py line 31): the view size is at
most 1 MiB. -/
def _check_view_size (view : View) : Bool :=
  view.size ≤ (1 <<< 20)

/-- Embeds `_in_function_call` (handlers.py line 34). -/
def _in_function_call (view : View) (point : Nat) : Bool :=
  view.match_selector point "meta.function-call.python" &&
    !(view.match_selector point "variable.function.python")

/-- Snapshot of a single-caret selection, as built by
`EventDispatcher._view_region` (a Python dict with keys
`file`, `begin`, `end`). -/
structure ViewRegion where
  file : Option String
  begin_ : Nat
  end_ : Nat
  deriving DecidableEq

/-- Edit classification kinds returned by `EventDispatcher._edit_info`. -/
inductive EditType where
  | insertion
  | deletion
  deriving DecidableEq

/-- Payload of a POST to `/clientapi/editor/event`, as built by
`EventDispatcher._event_data`. -/
structure EventData where
  source : String
  filename : String
  text : String
  action : String
  selections : List (Nat × Nat)
  deriving DecidableEq

/-- An action queued (or performed) by the dispatcher.  `postEvent` models
`deferred.defer(requests.kited_post, '/clientapi/editor/event', ...)`;
the others model the calls into `CompletionsHandler` and
`SignaturesHandler`. -/
inductive DispatchAction where
  | postEvent (data : EventData)
  | queueCompletions (location : Nat)
  | hideCompletions
  | queueSignatures (location : Nat)
  | hideSignaturesReq
  deriving DecidableEq

/-- The editor event kinds routed into `EventDispatcher._handle`
(`on_modified` sends `'edit'`, `on_selection_modified` sends
`'selection'`). -/
inductive EvKind where
  | edit
  | selection
  deriving DecidableEq

/-- The action string sent to `_event_data` for each event kind. -/
def EvKind.str : EvKind → String
  | .edit => "edit"
  | .selection => "selection"

namespace EventDispatcher

/-- Embeds `EventDispatcher._view_region` (handlers.py line 90): `none`
unless the view has exactly one selection region. -/
def _view_region (view : View) : Option ViewRegion :=
  match view.sel with
  | [r] => some { file := view.file_name, begin_ := min r.a r.b, end_ := max r.a r.b }
  | _ => none

/-- Embeds `EventDispatcher._edit_info` (handlers.py line 102).  The
Python function returns the pair `(None, None)` in the no-information
cases, modelled here as `Option.none`. -/
def _edit_info (selection edit : Option ViewRegion) : Option (EditType × Nat) :=
  match selection, edit with
  | some s, some e =>
    if s.file ≠ e.file then none
    else if e.end_ > s.end_ then some (EditType.insertion, e.end_ - s.end_)
    else if e.end_ < s.end_ then some (EditType.deletion, s.end_ - e.end_)
    else none
  | _, _ => none

/-- Embeds `EventDispatcher._event_data` (handlers.py line 117).  The
text is the whole buffer (`view.substr(sublime.Region(0, view.size()))`);
oversized views get `action='skip'` and empty text.  `realpath` is
applied to the file name; the dispatcher only calls this for supported
views, which always carry a file name. -/
def _event_data (view : View) (action : String) : EventData :=
  let text := view.text
  let p := if _check_view_size view then (action, text) else ("skip", "")
  { source := "sublime3"
    filename := realpath (view.file_name.getD "")
    text := p.2
    action := p.1
    selections := view.sel.map (fun r => (r.a, r.b)) }

/-- Result of one `EventDispatcher._handle` call: the actions queued (in
order), the new `_last_selection_region`, and whether the handler raised
an exception (the Python code indexes `select_region['end']` /
`edit_region['end']`, which raises `TypeError` when `_view_region`
returned `None`). -/
structure HandleResult where
  actions : List DispatchAction
  last : Option ViewRegion
  crashed : Bool
  deriving DecidableEq

/-- Embeds `EventDispatcher._handle` (handlers.py line 56).  State is
passed explicitly: `last` is the class attribute
`_last_selection_region` and `sigActivated` is the value of
`SignaturesHandler.is_activated()`. -/
def _handle (view : View) (action : EvKind) (last : Option ViewRegion)
    (sigActivated : Bool) : HandleResult :=
  if _is_view_supported view = false then ⟨[], last, false⟩
  else
    let ev := DispatchAction.postEvent (_event_data view action.str)
    match action with
    | .selection =>
      match _view_region view with
      | none => ⟨[ev], none, true⟩
      | some r =>
        let sigActs :=
          if _in_function_call view r.end_ then
            if sigActivated then [DispatchAction.queueSignatures r.end_] else []
          else [DispatchAction.hideSignaturesReq]
        ⟨ev :: sigActs, some r, false⟩
    | .edit =>
      if _check_view_size view then
        match _view_region view with
        | none =>
          ⟨[ev], last, true⟩
        | some r =>
          let compActs :=
            match _edit_info last (some r) with
            | some (EditType.insertion, n) =>
              if n = 1 then [DispatchAction.queueCompletions r.end_] else []
            | some (EditType.deletion, n) =>
              if 1 < n then [DispatchAction.hideCompletions] else []
            | none => []
          let sigActs :=
            if _in_function_call view r.end_ then [DispatchAction.queueSignatures r.end_]
            else [DispatchAction.hideSignaturesReq]
          ⟨ev :: (compActs ++ sigActs), last, false⟩
      else ⟨[ev], last, false⟩

end EventDispatcher

/-- Log events emitted through `logger.log`.  The Python code formats
strings; here each distinct log site is a constructor carrying the data
it formats. -/
inductive LogEvent where
  | locationMismatch (last : Option Nat) (loc : Nat)
  | jsonDecodeError
  | callInfo (in_kwargs : Bool) (arg_index : Int)
  | cannotSendStatus
  deriving DecidableEq

/-- One completion item as found in the completions response JSON:
`{display, hint, insert}`.  `hint` is `none` when the JSON value is
null. -/
structure CompletionItem where
  display : String
  hint : Option String
  insert : String
  deriving DecidableEq

/-- Mutable class state of `CompletionsHandler`:
`_received_completions` and `_last_location` (handlers.py lines
140-141). -/
structure CompState where
  received_completions : List CompletionItem
  last_location : Option Nat
  deriving DecidableEq

/-- Body of a completions fetch response: empty bytes, undecodable JSON,
or decoded JSON whose `completions` field is a possibly-null list. -/
inductive CompBody where
  | empty
  | malformed
  | valid (completions : Option (List CompletionItem))
  deriving DecidableEq

namespace CompletionsHandler

/-- Embeds `CompletionsHandler._brand_completion` (handlers.py
line 210).  Python tests the hint for truthiness, so both a null hint
and an empty-string hint take the hint-less branch. -/
def _brand_completion (symbol : String) (hint : Option String) : String :=
  match hint with
  | some h => if h = "" then symbol ++ "\t⟠" else symbol ++ "\t" ++ h ++ " ⟠"
  | none => symbol ++ "\t⟠"

/-- Result of one `on_query_completions` call: the value returned to
Sublime (`none` models Python `None`), the new class state, and any log
output. -/
structure QueryResult where
  completions : Option (List (String × String))
  state : CompState
  logs : List LogEvent
  deriving DecidableEq

/-- Embeds `CompletionsHandler.on_query_completions` (handlers.py
line 144).  The unused `prefix` parameter is dropped; `locations` is the
caret list Sublime passes.  The lock acquisition is blocking and the
model is sequential, so the critical section always runs. -/
def on_query_completions (s : CompState) (view : View) (locations : List Nat) :
    QueryResult :=
  if _is_view_supported view = false then ⟨none, s, []⟩
  else if _check_view_size view = false then ⟨none, s, []⟩
  else
    match locations with
    | [loc] =>
      let logs :=
        if s.last_location ≠ some loc ∧ s.received_completions ≠ [] then
          [LogEvent.locationMismatch s.last_location loc]
        else []
      let completions :=
        if s.last_location = some loc ∧ s.received_completions ≠ [] then
          some (s.received_completions.map
            (fun c => (_brand_completion c.display c.hint, c.insert)))
        else none
      ⟨completions, ⟨[], none⟩, logs⟩
    | _ => ⟨none, s, []⟩

/-- Result of one `_request_completions` call: the new class state,
whether `_run_auto_complete` was invoked, and any log output. -/
structure FetchResult where
  state : CompState
  autoComplete : Bool
  logs : List LogEvent
  deriving DecidableEq

/-- Embeds `CompletionsHandler._request_completions` (handlers.py
line 186).  `st`/`body` model the response of the POST to
`/clientapi/editor/completions`; `cursor_runes` is `data['cursor_runes']`
from the request payload built at queue time.  A null `completions`
field is replaced by the empty list (`resp_data['completions'] or []`). -/
def _request_completions (s : CompState) (st : Nat) (body : CompBody)
    (cursor_runes : Nat) : FetchResult :=
  if st ≠ 200 ∨ body = CompBody.empty then ⟨s, false, []⟩
  else
    match body with
    | CompBody.malformed => ⟨s, false, [LogEvent.jsonDecodeError]⟩
    | CompBody.valid comps => ⟨⟨comps.getD [], some cursor_runes⟩, true, []⟩
    | CompBody.empty => ⟨s, false, []⟩

end CompletionsHandler

/-- Model of the call object stored by `SignaturesHandler`.  The real
object is a JSON dict; the handler reads `language_details.python.in_kwargs`
and `arg_index` for logging and highlighting, normalises a `type` callee
to its constructor, and partitions parameters in place.  Those rewrites
change only the contents of the stored call, never its presence, which
is what the state claims depend on. -/
structure Call where
  in_kwargs : Bool
  arg_index : Int
  deriving DecidableEq

/-- Mutable class state of `SignaturesHandler` (handlers.py lines
230-233): `_activated`, `_view`, `_call`, and the handler lock.  Views
are identified by a number.  `locked` models the handler lock being held
by a concurrent operation; in a single-threaded run it is `false`
whenever a handler routine starts. -/
structure SigState where
  activated : Bool
  view : Option Nat
  call : Option Call
  locked : Bool
  deriving DecidableEq

/-- Body of a signatures fetch response: empty bytes, undecodable JSON,
or decoded JSON whose `calls` field is a possibly-null list. -/
inductive SigBody where
  | empty
  | malformed
  | valid (calls : Option (List Call))
  deriving DecidableEq

namespace SignaturesHandler

/-- The initial class state (handlers.py lines 230-233). -/
def initState : SigState :=
  { activated := false, view := none, call := none, locked := false }

/-- Embeds `SignaturesHandler.hide_signatures` (handlers.py line 251).
The lock acquisition is non-blocking: when the lock is already held the
state is untouched and the popup is not hidden.  Returns the new state
and whether `view.hide_popup()` ran. -/
def hide_signatures (s : SigState) : SigState × Bool :=
  if s.locked then (s, false)
  else ({ activated := false, view := none, call := none, locked := false }, true)

/-- Embeds `SignaturesHandler.is_activated` (handlers.py line 263). -/
def is_activated (s : SigState) : Bool :=
  s.activated

/-- Result of one `_request_signatures` call: the new class state,
whether the popup was hidden, whether a popup was shown, and any log
output. -/
structure SigFetchResult where
  state : SigState
  popupHidden : Bool
  popupShown : Bool
  logs : List LogEvent
  deriving DecidableEq

/-- Embeds `SignaturesHandler._request_signatures` (handlers.py
line 267).  `v` is the view the fetch was queued for; `st`/`body` model
the response of the POST to `/clientapi/editor/signatures`.  On success
with a non-empty call list the first call is stored under an
opportunistic (non-blocking) lock; when the lock is contended the
response is dropped without rendering. -/
def _request_signatures (s : SigState) (v : Nat) (st : Nat) (body : SigBody) :
    SigFetchResult :=
  if st ≠ 200 ∨ body = SigBody.empty then
    if st = 400 ∨ st = 404 then
      let p := hide_signatures s
      ⟨p.1, p.2, false, []⟩
    else ⟨s, false, false, []⟩
  else
    match body with
    | SigBody.malformed => ⟨s, false, false, [LogEvent.jsonDecodeError]⟩
    | SigBody.valid callsOpt =>
      match callsOpt.getD [] with
      | [] => ⟨s, false, false, []⟩
      | call :: _ =>
        if s.locked then
          ⟨s, false, false, [LogEvent.callInfo call.in_kwargs call.arg_index]⟩
        else
          ⟨{ activated := true, view := some v, call := some call, locked := false },
           false, true, [LogEvent.callInfo call.in_kwargs call.arg_index]⟩
    | SigBody.empty => ⟨s, false, false, []⟩

/-- Embeds `SignaturesHandler._rerender` (handlers.py line 340): under
an opportunistic lock, re-render the active call; no field is mutated.
Returns the (unchanged) state and whether a popup was shown. -/
def _rerender (s : SigState) : SigState × Bool :=
  if s.locked then (s, false)
  else (s, s.activated)

/-- Micro-step trace of `hide_signatures`: each list element is the
class state after one statement of the critical section, starting from
the entry state.  Used to check that `_activated` and `_call` change
only between acquisition and release of the lock. -/
def hideTrace (s : SigState) : List SigState :=
  if s.locked then [s]
  else
    let s1 := { s with locked := true }
    let s2 := { s1 with activated := false }
    let s3 := { s2 with view := none }
    let s4 := { s3 with call := none }
    let s5 := { s4 with locked := false }
    [s, s1, s2, s3, s4, s5]

/-- Micro-step trace of the state-storing section of
`_request_signatures` (handlers.py lines 305-311) when a call `c` is
stored for view `v`. -/
def storeTrace (s : SigState) (v : Nat) (c : Call) : List SigState :=
  if s.locked then [s]
  else
    let s1 := { s with locked := true }
    let s2 := { s1 with activated := true }
    let s3 := { s2 with view := some v }
    let s4 := { s3 with call := some c }
    let s5 := { s4 with locked := false }
    [s, s1, s2, s3, s4, s5]

/-- Micro-step trace of `_rerender` (handlers.py lines 342-345). -/
def rerenderTrace (s : SigState) : List SigState :=
  if s.locked then [s]
  else
    let s1 := { s with locked := true }
    let s2 := { s1 with locked := false }
    [s, s1, s2]

end SignaturesHandler

/-- Lock discipline on a micro-step trace: whenever a step changes
`activated` or `call`, the lock is held both before and after the
step. -/
def lockGuarded : List SigState → Prop
  | a :: b :: rest =>
    ((a.activated ≠ b.activated ∨ a.call ≠ b.call) →
      a.locked = true ∧ b.locked = true) ∧
    lockGuarded (b :: rest)
  | _ => True

/-- The `SignatureState` invariant from the spec: the stored call is
present exactly when the activated flag is set. -/
def sigInv (s : SigState) : Prop :=
  s.call.isSome = s.activated

/-- Symbol data read by the hover handler from the response JSON:
`value[0].kind` and `value[0].type` of the first element of the `symbol`
list. -/
structure HoverSymbol where
  kind : String
  type : String
  deriving DecidableEq

/-- Body of a hover fetch response.  `valid none` models a JSON body
whose `symbol` field is null; `valid (some sym)` carries the first
symbol. -/
inductive HoverBody where
  | empty
  | malformed
  | valid (symbol : Option HoverSymbol)
  deriving DecidableEq

/-- Observable outcome of a hover fetch. -/
inductive HoverOutcome where
  | nothing
  | logJsonError
  | showPopup (hint : String)
  deriving DecidableEq

namespace HoverHandler

/-- Embeds `HoverHandler.on_hover` (handlers.py line 412): queues one
hover fetch when the view is supported, within the size ceiling, and
has exactly one selection; returns the queued fetch points. -/
def on_hover (view : View) (point : Nat) : List Nat :=
  if _is_view_supported view && _check_view_size view &&
      (view.sel.length = 1 : Bool) then [point]
  else []

/-- Embeds `HoverHandler._request_hover` (handlers.py line 419),
abstracted to its observable outcome.  The popup hint is the symbol
kind, or its type when the kind is `instance`. -/
def _request_hover (st : Nat) (body : HoverBody) : HoverOutcome :=
  if st ≠ 200 ∨ body = HoverBody.empty then HoverOutcome.nothing
  else
    match body with
    | HoverBody.malformed => HoverOutcome.logJsonError
    | HoverBody.valid none => HoverOutcome.nothing
    | HoverBody.valid (some sym) =>
      HoverOutcome.showPopup (if sym.kind ≠ "instance" then sym.kind else sym.type)
    | HoverBody.empty => HoverOutcome.nothing

end HoverHandler

/-- Body of a status response: empty bytes, undecodable JSON, or decoded
JSON with a `status` string. -/
inductive StatusBody where
  | empty
  | malformed
  | valid (status : String)
  deriving DecidableEq

/-- Outcome of the status request round trip, as seen by
`StatusHandler._handle`: an HTTP response, a refused connection
(`ConnectionRefusedError`), or a busy transport
(`http.client.CannotSendRequest`). -/
inductive StatusResp where
  | httpResp (st : Nat) (body : StatusBody)
  | connectionRefused
  | cannotSend
  deriving DecidableEq

/-- Observable outcome of one `StatusHandler._handle` call on the view's
status-bar key. -/
inductive StatusAction where
  | erase
  | set (msg : String)
  | logOnly (ev : LogEvent)
  deriving DecidableEq

/-- A status outcome is silent when it neither sets nor erases the
status-bar text. -/
def StatusAction.isSilent : StatusAction → Bool
  | StatusAction.set _ => false
  | StatusAction.erase => false
  | StatusAction.logOnly _ => true

/-- Python `str.capitalize`: first character upper-cased, the rest
lower-cased. -/
def pyCapitalize (s : String) : String :=
  match s.data with
  | [] => ""
  | c :: rest => String.mk (c.toUpper :: rest.map Char.toLower)

namespace StatusHandler

/-- Embeds `StatusHandler._brand_status` (handlers.py line 543). -/
def _brand_status (status : String) : String :=
  "𝕜𝕚𝕥𝕖: " ++ status

/-- Embeds `StatusHandler._handle` (handlers.py line 509).  `r` models
the outcome of the GET to `/clientapi/status`; unsupported views never
issue the request (modelled by ignoring `r` on those paths). -/
def _handle (view : View) (r : StatusResp) : StatusAction :=
  if _is_view_supported view = false then StatusAction.erase
  else if _check_view_size view = false then
    StatusAction.set (_brand_status "File too large")
  else
    match r with
    | StatusResp.connectionRefused => StatusAction.set (_brand_status "Connection error")
    | StatusResp.cannotSend => StatusAction.logOnly LogEvent.cannotSendStatus
    | StatusResp.httpResp st body =>
      match body with
      | StatusBody.empty => StatusAction.set (_brand_status "Server error")
      | StatusBody.malformed =>
        if st ≠ 200 then StatusAction.set (_brand_status "Server error")
        else StatusAction.logOnly LogEvent.jsonDecodeError
      | StatusBody.valid status =>
        if st ≠ 200 then StatusAction.set (_brand_status "Server error")
        else StatusAction.set (_brand_status (pyCapitalize status))

end StatusHandler

/-- No action in the list touches completions (neither a fetch nor a
hide). -/
def noCompletionsAction (acts : List DispatchAction) : Prop :=
  ∀ a ∈ acts, (∀ l, a ≠ DispatchAction.queueCompletions l) ∧
    a ≠ DispatchAction.hideCompletions

/-- A small supported Python view with one caret at point 5, not inside
a function call. -/
def pyView : View :=
  { file_name := some "a.py"
    size := 100
    sel := [⟨5, 5⟩]
    text := "x = 1"
    match_selector := fun _ _ => false }

/-- A supported Python view with one caret at point 3 inside a function
call. -/
def fcView : View :=
  { file_name := some "a.py"
    size := 10
    sel := [⟨3, 3⟩]
    text := "f("
    match_selector := fun _ s => s == "meta.function-call.python" }

/-- A supported Python view one byte over the 1 MiB ceiling, with one
caret at point 7 inside a function call. -/
def bigFcView : View :=
  { file_name := some "a.py"
    size := (1 <<< 20) + 1
    sel := [⟨7, 7⟩]
    text := "g("
    match_selector := fun _ s => s == "meta.function-call.python" }

/-- C4: the edit classifier `_edit_info` is a pure total function: absent
regions or differing files give `none`; with equal files it returns
`insertion` with count `current.end - previous.end` when the current end
is larger, `deletion` with count `previous.end - current.end` when it is
smaller, and `none` when the ends are equal. -/
theorem edit_info_classification (selection edit : Option ViewRegion) :
    ((selection = none ∨ edit = none) →
      EventDispatcher._edit_info selection edit = none) ∧
    ∀ s e, selection = some s → edit = some e →
      (s.file ≠ e.file → EventDispatcher._edit_info selection edit = none) ∧
      (s.file = e.file →
        (e.end_ = s.end_ → EventDispatcher._edit_info selection edit = none) ∧
        (s.end_ < e.end_ →
          EventDispatcher._edit_info selection edit =
            some (EditType.insertion, e.end_ - s.end_)) ∧
        (e.end_ < s.end_ →
          EventDispatcher._edit_info selection edit =
            some (EditType.deletion, s.end_ - e.end_))) := by
  constructor
  · rintro (rfl | rfl)
    · cases edit <;> rfl
    · cases selection <;> rfl
  · rintro s e rfl rfl
    constructor
    · intro hne
      simp [EventDispatcher._edit_info, hne]
    · intro hfe
      refine ⟨fun heq => ?_, fun hlt => ?_, fun hlt => ?_⟩ <;>
        · simp only [EventDispatcher._edit_info]
          split_ifs <;> first | rfl | omega | tauto

/-- Witness for C4 at the spec scenario: prior selection ends at 10, edit
ends at 11, same file, giving a single-character insertion. -/
theorem edit_info_classification_witness :
    EventDispatcher._edit_info (some ⟨some "a.py", 10, 10⟩) (some ⟨some "a.py", 11, 11⟩) =
      some (EditType.insertion, 1) := by
  have h := edit_info_classification (some ⟨some "a.py", 10, 10⟩) (some ⟨some "a.py", 11, 11⟩)
  exact ((h.2 _ _ rfl rfl).2 rfl).2.1 (by decide)

/-- C3: a signatures fetch response with status 400 or 404 always resets
the signatures state to inactive — `activated` false, the stored call and
view cleared, and the popup hidden — whatever the prior field values.
The lock is free at entry, as in any single-threaded execution. -/
theorem signatures_force_hide (s : SigState) (v : Nat) (st : Nat) (body : SigBody)
    (hlock : s.locked = false) (hst : st = 400 ∨ st = 404) :
    (SignaturesHandler._request_signatures s v st body).state.activated = false ∧
    (SignaturesHandler._request_signatures s v st body).state.call = none ∧
    (SignaturesHandler._request_signatures s v st body).state.view = none ∧
    (SignaturesHandler._request_signatures s v st body).popupHidden = true := by
  rcases hst with rfl | rfl <;>
    simp [SignaturesHandler._request_signatures, SignaturesHandler.hide_signatures, hlock]

/-- Witness for C3: a 404 response while a call is active and the popup is
showing clears the state and hides the popup. -/
theorem signatures_force_hide_witness :
    (SignaturesHandler._request_signatures ⟨true, some 1, some ⟨false, 0⟩, false⟩ 2 404
        (SigBody.valid none)).state.activated = false ∧
    (SignaturesHandler._request_signatures ⟨true, some 1, some ⟨false, 0⟩, false⟩ 2 404
        (SigBody.valid none)).state.call = none ∧
    (SignaturesHandler._request_signatures ⟨true, some 1, some ⟨false, 0⟩, false⟩ 2 404
        (SigBody.valid none)).state.view = none ∧
    (SignaturesHandler._request_signatures ⟨true, some 1, some ⟨false, 0⟩, false⟩ 2 404
        (SigBody.valid none)).popupHidden = true :=
  signatures_force_hide ⟨true, some 1, some ⟨false, 0⟩, false⟩ 2 404 (SigBody.valid none)
    rfl (Or.inr rfl)

/-- C9: the signatures state invariant — the stored call is non-null iff
the activated flag is true — holds in the initial state and is preserved
by hide, by a fetch response, and by a rerender; and on the micro-step
traces of every operation, `_activated` and `_call` change only while
the handler lock is held. -/
theorem signatures_invariant_preserved :
    sigInv SignaturesHandler.initState ∧
    (∀ s, sigInv s → sigInv (SignaturesHandler.hide_signatures s).1) ∧
    (∀ s v st body, sigInv s →
      sigInv (SignaturesHandler._request_signatures s v st body).state) ∧
    (∀ s, sigInv s → sigInv (SignaturesHandler._rerender s).1) ∧
    (∀ s, lockGuarded (SignaturesHandler.hideTrace s)) ∧
    (∀ s v c, lockGuarded (SignaturesHandler.storeTrace s v c)) ∧
    (∀ s, lockGuarded (SignaturesHandler.rerenderTrace s)) := by
  refine ⟨rfl, ?_, ?_, ?_, ?_, ?_, ?_⟩
  · intro s h
    by_cases hl : s.locked
    · simpa [SignaturesHandler.hide_signatures, hl] using h
    · simp [SignaturesHandler.hide_signatures, hl, sigInv]
  · intro s v st body h
    have hhide : sigInv (SignaturesHandler.hide_signatures s).1 := by
      unfold SignaturesHandler.hide_signatures
      split_ifs
      · exact h
      · rfl
    unfold SignaturesHandler._request_signatures
    split_ifs with h1 h2
    · exact hhide
    · exact h
    all_goals
      cases body with
      | empty => exact absurd (Or.inr rfl) h1
      | malformed => exact h
      | valid callsOpt =>
        cases callsOpt with
        | none => exact h
        | some calls =>
          cases calls with
          | nil => exact h
          | cons c rest => first | exact h | rfl
  · intro s h
    by_cases hl : s.locked <;> simp [SignaturesHandler._rerender, hl] <;> exact h
  · intro s
    by_cases hl : s.locked <;> simp [SignaturesHandler.hideTrace, hl, lockGuarded]
  · intro s v c
    by_cases hl : s.locked <;> simp [SignaturesHandler.storeTrace, hl, lockGuarded]
  · intro s
    by_cases hl : s.locked <;> simp [SignaturesHandler.rerenderTrace, hl, lockGuarded]

/-- Witness for C9: preservation applied to a concrete active state, for
each hypothesis-bearing conjunct. -/
theorem signatures_invariant_preserved_witness :
    sigInv (SignaturesHandler.hide_signatures ⟨true, some 0, some ⟨true, 1⟩, false⟩).1 ∧
    sigInv (SignaturesHandler._request_signatures ⟨false, none, none, false⟩ 3 200
      (SigBody.valid (some [⟨false, 2⟩]))).state ∧
    sigInv (SignaturesHandler._rerender ⟨true, some 0, some ⟨true, 1⟩, false⟩).1 :=
  ⟨signatures_invariant_preserved.2.1 _ rfl,
   signatures_invariant_preserved.2.2.1 _ 3 200 _ rfl,
   signatures_invariant_preserved.2.2.2.1 _ rfl⟩

/-- C2: after a completions fetch completes storing a non-empty item list
at location `L1`, a consume at `L2` (single caret, supported, size-OK
view) returns items iff `L1 = L2`; on a match it returns the branded
items, and on a mismatch it returns no items and logs a
location-mismatch diagnostic. -/
theorem completions_location_exact (s0 : CompState) (items : List CompletionItem)
    (L1 L2 : Nat) (view : View) (hitems : items ≠ [])
    (hsup : _is_view_supported view = true) (hsz : _check_view_size view = true) :
    ((CompletionsHandler.on_query_completions
        (CompletionsHandler._request_completions s0 200 (CompBody.valid (some items)) L1).state
        view [L2]).completions.isSome ↔ L1 = L2) ∧
    (L1 = L2 →
      (CompletionsHandler.on_query_completions
          (CompletionsHandler._request_completions s0 200 (CompBody.valid (some items)) L1).state
          view [L2]).completions =
        some (items.map
          (fun c => (CompletionsHandler._brand_completion c.display c.hint, c.insert)))) ∧
    (L1 ≠ L2 →
      (CompletionsHandler.on_query_completions
          (CompletionsHandler._request_completions s0 200 (CompBody.valid (some items)) L1).state
          view [L2]).completions = none ∧
      (CompletionsHandler.on_query_completions
          (CompletionsHandler._request_completions s0 200 (CompBody.valid (some items)) L1).state
          view [L2]).logs = [LogEvent.locationMismatch (some L1) L2]) := by
  have hstate :
      (CompletionsHandler._request_completions s0 200 (CompBody.valid (some items)) L1).state =
        ⟨items, some L1⟩ := by
    simp [CompletionsHandler._request_completions]
  rw [hstate]
  by_cases hL : L1 = L2
  · subst hL
    simp [CompletionsHandler.on_query_completions, hsup, hsz, hitems]
  · simp [CompletionsHandler.on_query_completions, hsup, hsz, hitems, hL]

/-- Witness for C2 at the spec scenario: a fetch at location 5 returning
one item, consumed at location 5, yields the branded pair. -/
theorem completions_location_exact_witness :
    (CompletionsHandler.on_query_completions
        (CompletionsHandler._request_completions ⟨[], none⟩ 200
          (CompBody.valid (some [⟨"foo", some "function", "foo()"⟩])) 5).state
        pyView [5]).completions =
      some [("foo\tfunction ⟠", "foo()")] := by
  have h := completions_location_exact ⟨[], none⟩ [⟨"foo", some "function", "foo()"⟩]
    5 5 pyView (by decide) (by decide) (by decide)
  simpa using h.2.1 rfl

/-- C6: the completions cache is one-shot: when the cache holds a
non-empty item list for location `L`, a consume at `L` returns the
branded items and empties the cache, and an immediately following
consume at `L` returns no items. -/
theorem completions_one_shot (s : CompState) (L : Nat) (view : View)
    (hsup : _is_view_supported view = true) (hsz : _check_view_size view = true)
    (hloc : s.last_location = some L) (hne : s.received_completions ≠ []) :
    (CompletionsHandler.on_query_completions s view [L]).completions =
      some (s.received_completions.map
        (fun c => (CompletionsHandler._brand_completion c.display c.hint, c.insert))) ∧
    (CompletionsHandler.on_query_completions s view [L]).state = ⟨[], none⟩ ∧
    (CompletionsHandler.on_query_completions
        (CompletionsHandler.on_query_completions s view [L]).state view [L]).completions =
      none := by
  refine ⟨?_, ?_, ?_⟩ <;>
    simp [CompletionsHandler.on_query_completions, hsup, hsz, hloc, hne]

/-- Witness for C6: a cache holding one item for location 5 is consumed
once and the immediate second consume is empty. -/
theorem completions_one_shot_witness :
    (CompletionsHandler.on_query_completions
        ⟨[⟨"foo", none, "foo"⟩], some 5⟩ pyView [5]).completions =
      some [("foo\t⟠", "foo")] ∧
    (CompletionsHandler.on_query_completions
        (CompletionsHandler.on_query_completions
          ⟨[⟨"foo", none, "foo"⟩], some 5⟩ pyView [5]).state pyView [5]).completions =
      none := by
  have h := completions_one_shot ⟨[⟨"foo", none, "foo"⟩], some 5⟩ 5 pyView
    (by decide) (by decide) rfl (by decide)
  exact ⟨by simpa using h.1, h.2.2⟩

/-- C10: every consume that reaches the locked section (supported,
size-OK view, exactly one caret) resets the cache to empty and the
cached location to absent — also on a location mismatch — so any later
consume on the resulting state returns no items. -/
theorem consume_always_resets (s : CompState) (view : View) (L : Nat)
    (hsup : _is_view_supported view = true) (hsz : _check_view_size view = true) :
    (CompletionsHandler.on_query_completions s view [L]).state.received_completions = [] ∧
    (CompletionsHandler.on_query_completions s view [L]).state.last_location = none ∧
    ∀ L2, (CompletionsHandler.on_query_completions
        (CompletionsHandler.on_query_completions s view [L]).state view [L2]).completions =
      none := by
  refine ⟨?_, ?_, fun L2 => ?_⟩ <;>
    simp [CompletionsHandler.on_query_completions, hsup, hsz]

/-- Witness for C10: a mismatched consume (cache at 5, request at 9)
still resets the cache, and a follow-up consume at the previously cached
location 5 returns nothing. -/
theorem consume_always_resets_witness :
    (CompletionsHandler.on_query_completions
        ⟨[⟨"foo", none, "foo"⟩], some 5⟩ pyView [9]).state.received_completions = [] ∧
    (CompletionsHandler.on_query_completions
        (CompletionsHandler.on_query_completions
          ⟨[⟨"foo", none, "foo"⟩], some 5⟩ pyView [9]).state pyView [5]).completions =
      none := by
  have h := consume_always_resets ⟨[⟨"foo", none, "foo"⟩], some 5⟩ pyView 9
    (by decide) (by decide)
  exact ⟨h.1, h.2.2 5⟩

/-- Counterexample to C7 as stated: on a selection event in `fcView` the
caret sits inside a function-call context and signatures are not
active, yet the dispatcher queues nothing and does not request a hide —
the only action is the forwarded event record, contradicting
"otherwise signatures are requested to be hidden". -/
theorem selection_routing_cex :
    _is_view_supported fcView = true ∧
    _in_function_call fcView 3 = true ∧
    (EventDispatcher._handle fcView EvKind.selection none false).actions =
      [DispatchAction.postEvent (EventDispatcher._event_data fcView "selection")] := by
  decide

/-- C7 amended: on a selection event with a single caret on a supported
view, the new selection region is remembered; if the caret is inside a
function-call context a signature refresh is queued at the caret iff
signatures are active (and nothing happens otherwise), and only when the
caret is outside a function-call context are signatures requested to be
hidden. -/
theorem selection_signature_routing (view : View) (last : Option ViewRegion)
    (sig : Bool) (r : ViewRegion)
    (hsup : _is_view_supported view = true)
    (hr : EventDispatcher._view_region view = some r) :
    (EventDispatcher._handle view EvKind.selection last sig).last = some r ∧
    (_in_function_call view r.end_ = true → sig = true →
      (EventDispatcher._handle view EvKind.selection last sig).actions =
        [DispatchAction.postEvent (EventDispatcher._event_data view "selection"),
         DispatchAction.queueSignatures r.end_]) ∧
    (_in_function_call view r.end_ = true → sig = false →
      (EventDispatcher._handle view EvKind.selection last sig).actions =
        [DispatchAction.postEvent (EventDispatcher._event_data view "selection")]) ∧
    (_in_function_call view r.end_ = false →
      (EventDispatcher._handle view EvKind.selection last sig).actions =
        [DispatchAction.postEvent (EventDispatcher._event_data view "selection"),
         DispatchAction.hideSignaturesReq]) := by
  refine ⟨?_, ?_, ?_, ?_⟩
  · simp [EventDispatcher._handle, hsup, hr, EvKind.str]
  · intro hfc hsig
    simp [EventDispatcher._handle, hsup, hr, hfc, hsig, EvKind.str]
  · intro hfc hsig
    simp [EventDispatcher._handle, hsup, hr, hfc, hsig, EvKind.str]
  · intro hfc
    simp [EventDispatcher._handle, hsup, hr, hfc, EvKind.str]

/-- Witness for C7 (amended): in `fcView` with signatures active, the
selection event queues a refresh at the caret. -/
theorem selection_signature_routing_witness :
    (EventDispatcher._handle fcView EvKind.selection none true).actions =
      [DispatchAction.postEvent (EventDispatcher._event_data fcView "selection"),
       DispatchAction.queueSignatures 3] := by
  have h := selection_signature_routing fcView none true ⟨some "a.py", 3, 3⟩
    (by decide) (by decide)
  exact h.2.1 (by decide) rfl

/-- C8: on an edit event on a supported, size-OK view with a single
caret: a classification of `insertion` with count 1 queues a completions
fetch at the edit region end; `deletion` with count above 1 hides
completions; every other classification yields no completions action at
all. -/
theorem edit_completions_trigger (view : View) (last : Option ViewRegion)
    (sig : Bool) (r : ViewRegion)
    (hsup : _is_view_supported view = true) (hsz : _check_view_size view = true)
    (hr : EventDispatcher._view_region view = some r) :
    (EventDispatcher._edit_info last (some r) = some (EditType.insertion, 1) →
      DispatchAction.queueCompletions r.end_ ∈
        (EventDispatcher._handle view EvKind.edit last sig).actions) ∧
    (∀ n, EventDispatcher._edit_info last (some r) = some (EditType.deletion, n) → 1 < n →
      DispatchAction.hideCompletions ∈
        (EventDispatcher._handle view EvKind.edit last sig).actions) ∧
    (∀ n, EventDispatcher._edit_info last (some r) = some (EditType.insertion, n) → n ≠ 1 →
      noCompletionsAction (EventDispatcher._handle view EvKind.edit last sig).actions) ∧
    (∀ n, EventDispatcher._edit_info last (some r) = some (EditType.deletion, n) → ¬ 1 < n →
      noCompletionsAction (EventDispatcher._handle view EvKind.edit last sig).actions) ∧
    (EventDispatcher._edit_info last (some r) = none →
      noCompletionsAction (EventDispatcher._handle view EvKind.edit last sig).actions) := by
  refine ⟨?_, ?_, ?_, ?_, ?_⟩
  · intro hei
    simp [EventDispatcher._handle, hsup, hsz, hr, hei]
  · intro n hei hn
    simp [EventDispatcher._handle, hsup, hsz, hr, hei, hn]
  · intro n hei hn a ha
    by_cases hfc : _in_function_call view r.end_ <;>
      simp [EventDispatcher._handle, hsup, hsz, hr, hei, hn, hfc] at ha <;>
      rcases ha with rfl | rfl <;> simp
  · intro n hei hn a ha
    by_cases hfc : _in_function_call view r.end_ <;>
      simp [EventDispatcher._handle, hsup, hsz, hr, hei, hn, hfc] at ha <;>
      rcases ha with rfl | rfl <;> simp
  · intro hei a ha
    by_cases hfc : _in_function_call view r.end_ <;>
      simp [EventDispatcher._handle, hsup, hsz, hr, hei, hfc] at ha <;>
      rcases ha with rfl | rfl <;> simp

/-- Witness for C8: in `pyView` (caret ends at 5), a prior selection
ending at 4 gives a single-character insertion and queues a completions
fetch at 5, while a prior selection ending at 20 gives a multi-character
deletion and hides completions. -/
theorem edit_completions_trigger_witness :
    DispatchAction.queueCompletions 5 ∈
      (EventDispatcher._handle pyView EvKind.edit
        (some ⟨some "a.py", 4, 4⟩) false).actions ∧
    DispatchAction.hideCompletions ∈
      (EventDispatcher._handle pyView EvKind.edit
        (some ⟨some "a.py", 20, 20⟩) false).actions := by
  have h1 := edit_completions_trigger pyView (some ⟨some "a.py", 4, 4⟩) false
    ⟨some "a.py", 5, 5⟩ (by decide) (by decide) (by decide)
  have h2 := edit_completions_trigger pyView (some ⟨some "a.py", 20, 20⟩) false
    ⟨some "a.py", 5, 5⟩ (by decide) (by decide) (by decide)
  exact ⟨h1.1 (by decide), h2.2.1 15 (by decide) (by decide)⟩

/-- Counterexample to C1 as stated: `bigFcView` exceeds the 1 MiB
ceiling, yet a selection event with signatures active queues a
signatures request — the dispatcher's selection branch never checks the
size ceiling. -/
theorem oversized_guard_cex :
    _check_view_size bigFcView = false ∧
    DispatchAction.queueSignatures 7 ∈
      (EventDispatcher._handle bigFcView EvKind.selection none true).actions := by
  decide

/-- C1 amended: on a document over the 1 MiB ceiling, an edit event
queues nothing beyond the event record, no event ever queues a
completions fetch or hide, no hover fetch is queued, and the event
record uses action `skip` with empty text; a selection event, however,
may still queue or hide signatures. -/
theorem oversized_guard (view : View) (hsz : _check_view_size view = false) :
    (∀ last sig a, a ∈ (EventDispatcher._handle view EvKind.edit last sig).actions →
      a = DispatchAction.postEvent (EventDispatcher._event_data view "edit")) ∧
    (∀ last sig a, a ∈ (EventDispatcher._handle view EvKind.selection last sig).actions →
      (∀ l, a ≠ DispatchAction.queueCompletions l) ∧ a ≠ DispatchAction.hideCompletions) ∧
    (∀ point, HoverHandler.on_hover view point = []) ∧
    (∀ action, (EventDispatcher._event_data view action).action = "skip" ∧
      (EventDispatcher._event_data view action).text = "") := by
  refine ⟨?_, ?_, ?_, ?_⟩
  · intro last sig a ha
    by_cases hsup : _is_view_supported view <;>
      simp [EventDispatcher._handle, hsup, hsz, EvKind.str] at ha
    exact ha
  · intro last sig a ha
    by_cases hsup : _is_view_supported view
    · rcases hvr : EventDispatcher._view_region view with _ | r
      · simp [EventDispatcher._handle, hsup, hvr, EvKind.str] at ha
        subst ha
        simp
      · by_cases hfc : _in_function_call view r.end_ <;> cases sig <;>
          simp [EventDispatcher._handle, hsup, hvr, hfc, EvKind.str] at ha <;>
          first
            | (subst ha; simp)
            | (rcases ha with rfl | rfl <;> simp)
    · simp [EventDispatcher._handle, hsup] at ha
  · intro point
    simp [HoverHandler.on_hover, hsz]
  · intro action
    simp [EventDispatcher._event_data, hsz]

/-- Witness for C1 (amended) on `bigFcView`: the hover trigger queues
nothing and the event record for an edit is a skip with empty text. -/
theorem oversized_guard_witness :
    HoverHandler.on_hover bigFcView 7 = [] ∧
    (EventDispatcher._event_data bigFcView "edit").action = "skip" ∧
    (EventDispatcher._event_data bigFcView "edit").text = "" :=
  ⟨(oversized_guard bigFcView (by decide)).2.2.1 7,
   (oversized_guard bigFcView (by decide)).2.2.2 "edit"⟩

/-- Counterexample to C5 as stated: a 500 response from the status
endpoint on a supported, size-OK view is not silent — the handler sets a
visible branded "Server error" status. -/
theorem non_success_silent_cex :
    StatusHandler._handle pyView (StatusResp.httpResp 500 (StatusBody.valid "ready")) =
      StatusAction.set "𝕜𝕚𝕥𝕖: Server error" ∧
    (StatusHandler._handle pyView
      (StatusResp.httpResp 500 (StatusBody.valid "ready"))).isSilent = false := by
  decide

/-- C5 amended: a non-200 response is swallowed with no state change, no
log and no UI effect on the completions endpoint, on the signatures
endpoint unless the status is 400 or 404, and on the hover endpoint; the
status endpoint instead sets a visible branded "Server error" status. -/
theorem non_success_no_result (st : Nat) (hst : st ≠ 200) :
    (∀ s body cr, CompletionsHandler._request_completions s st body cr = ⟨s, false, []⟩) ∧
    (st ≠ 400 → st ≠ 404 → ∀ s v body,
      SignaturesHandler._request_signatures s v st body = ⟨s, false, false, []⟩) ∧
    (∀ body, HoverHandler._request_hover st body = HoverOutcome.nothing) ∧
    (∀ view body, _is_view_supported view = true → _check_view_size view = true →
      StatusHandler._handle view (StatusResp.httpResp st body) =
        StatusAction.set (StatusHandler._brand_status "Server error")) := by
  refine ⟨?_, ?_, ?_, ?_⟩
  · intro s body cr
    simp [CompletionsHandler._request_completions, hst]
  · intro h400 h404 s v body
    simp [SignaturesHandler._request_signatures, hst, h400, h404]
  · intro body
    simp [HoverHandler._request_hover, hst]
  · intro view body hsup hsz
    cases body <;> simp [StatusHandler._handle, hsup, hsz, hst]

/-- Witness for C5 (amended) at status 500: the completions fetch drops
the response unchanged and the status handler shows "Server error". -/
theorem non_success_no_result_witness :
    CompletionsHandler._request_completions ⟨[], none⟩ 500
      (CompBody.valid (some [⟨"foo", none, "foo"⟩])) 5 = ⟨⟨[], none⟩, false, []⟩ ∧
    StatusHandler._handle pyView (StatusResp.httpResp 500 StatusBody.malformed) =
      StatusAction.set (StatusHandler._brand_status "Server error") :=
  ⟨(non_success_no_result 500 (by decide)).1 ⟨[], none⟩ _ 5,
   (non_success_no_result 500 (by decide)).2.2.2 pyView StatusBody.malformed
     (by decide) (by decide)⟩
